import Mathlib

/-!
Verification of the Strava routes overview server (src/server.js).

The JavaScript source is shallowly embedded: each relevant function of the
server is translated into a Lean definition, with JavaScript truthiness made
explicit (`Option` for possibly-absent fields, the empty string and the
number 0 being falsy), network responses supplied by explicit oracle
arguments, and the mutable per-request session threaded as a value.
-/

namespace StravaRoutes

/-- Opaque athlete profile blob. A JavaScript object is always truthy, so a
possibly-absent athlete field is `Option Athlete` with `none` for
`undefined`/`null`. -/
structure Athlete where
  blob : String
deriving DecidableEq, Repr

/-- The session-held token record `req.session.strava`
(src/server.js lines 85-90 and 135-140). `expires_at` is `Option Int`
(`none` for an absent/null field; `some 0` is also falsy in JS). -/
structure TokenRecord where
  access_token : String
  refresh_token : Option String
  expires_at : Option Int
  athlete : Option Athlete
deriving DecidableEq, Repr

/-- A JSON body returned by the Strava token endpoint, for both the
`authorization_code` and the `refresh_token` grants. -/
structure OAuthTokenJson where
  access_token : String
  refresh_token : Option String
  expires_at : Option Int
  athlete : Option Athlete
deriving DecidableEq, Repr

/-- Outcome of one HTTP POST to the token endpoint: `res.ok` with a JSON
body, or a non-success status with a response text. -/
inductive TokenEndpointResult where
  | ok (json : OAuthTokenJson)
  | httpError (status : Nat) (body : String)
deriving DecidableEq, Repr

/-- `isAuthed` (src/server.js line 49-51): the session is authenticated iff
`req.session.strava` exists and its `access_token` is truthy (a non-empty
string). -/
def isAuthed (sess : Option TokenRecord) : Bool :=
  match sess with
  | none => false
  | some data => data.access_token != ""

/-- The guard of `refreshIfNeeded` (src/server.js line 72):
`data.expires_at && data.expires_at - now <= 300`. The truthiness test means
an absent, null, or zero `expires_at` never triggers a refresh. -/
def refreshDue (data : TokenRecord) (now : Int) : Bool :=
  match data.expires_at with
  | none => false
  | some e => e != 0 && decide (e - now ≤ 300)

/-- JavaScript `x || y` on two possibly-absent athlete objects
(`json.athlete || data.athlete`, src/server.js line 89). -/
def jsOrAthlete (x y : Option Athlete) : Option Athlete :=
  match x with
  | some a => some a
  | none => y

/-- `refreshIfNeeded` (src/server.js lines 68-95). The session record is
passed in and the (possibly replaced) record is returned, together with the
number of refresh-grant calls performed (0 or 1). `resp` is the token
endpoint's answer, consulted only when a refresh is actually issued. On
`res.ok` the whole record is replaced by a single assignment; on a
non-success status the failure is only logged and the old record is kept;
the function never throws. -/
def refreshIfNeeded (sess : Option TokenRecord) (now : Int)
    (resp : TokenEndpointResult) : Option TokenRecord × Nat :=
  match sess with
  | none => (none, 0)
  | some data =>
    if refreshDue data now then
      match resp with
      | .ok json =>
          (some { access_token := json.access_token
                  refresh_token := json.refresh_token
                  expires_at := json.expires_at
                  athlete := jsOrAthlete json.athlete data.athlete }, 1)
      | .httpError _ _ => (some data, 1)
    else (some data, 0)

/-- The per-session state the OAuth routes touch: `req.session.strava` and
`req.session.oauth_state`. -/
structure Session where
  strava : Option TokenRecord
  oauth_state : Option String
deriving DecidableEq, Repr

/-- `GET /auth` (src/server.js lines 114-127): stores the freshly generated
random `state` in the session (the redirect URL construction carries no
session effect). -/
def authRoute (sess : Session) (newState : String) : Session :=
  { sess with oauth_state := some newState }

/-- Response of `GET /oauth/callback`. -/
inductive CallbackResp where
  | badRequest (msg : String)
  | redirectHome
  | serverError (msg : String)
deriving DecidableEq, Repr

/-- JavaScript truthiness of a possibly-absent string query parameter:
falsy iff absent or empty. -/
def truthyStr (s : Option String) : Bool :=
  match s with
  | none => false
  | some v => v != ""

/-- `GET /oauth/callback` (src/server.js lines 129-146). Checks `code`
truthiness, then `state !== req.session.oauth_state` (here: equality of
`Option String`), then exchanges the code; a failed exchange throws and is
caught as a 500. Note that `oauth_state` is never cleared. -/
def callbackRoute (sess : Session) (code state : Option String)
    (exch : TokenEndpointResult) : Session × CallbackResp :=
  if truthyStr code = false then (sess, .badRequest "Missing code")
  else if state ≠ sess.oauth_state then (sess, .badRequest "Invalid state")
  else
    match exch with
    | .ok token =>
        ({ sess with strava := some { access_token := token.access_token
                                      refresh_token := token.refresh_token
                                      expires_at := token.expires_at
                                      athlete := token.athlete } },
         .redirectHome)
    | .httpError _ _ => (sess, .serverError "OAuth Fehler. Details in Server-Logs.")

/-- Nested `map` object of a raw Strava activity; `summary_polyline` may be
absent/null (`none`) or the empty string (falsy). -/
structure RawMap where
  summary_polyline : Option String
deriving DecidableEq, Repr

/-- A raw activity object from the Strava API; only the fields the server
reads are modelled. `sport_type` and `type` may be absent. -/
structure RawActivity where
  id : Int
  name : String
  sport_type : Option String
  type : Option String
  start_date : String
  distance : ℚ
  map : Option RawMap
deriving DecidableEq, Repr

/-- One element of an upstream activities array. The server's filter guards
against null elements (`a && ...`), so an element is `Option RawActivity`. -/
abbrev RawEntry := Option RawActivity

/-- The normalized record built at src/server.js lines 180-187. -/
structure RouteRecord where
  id : Int
  name : String
  sport_type : Option String
  start_date : String
  distance : ℚ
  polyline : String
deriving DecidableEq, Repr

/-- JavaScript `x || y` on two possibly-absent strings
(`a.sport_type || a.type`, src/server.js line 183): a present non-empty
`x` wins, otherwise the result is `y` as-is. -/
def jsOrStr (x y : Option String) : Option String :=
  match x with
  | some s => if s = "" then y else some s
  | none => y

/-- The filter predicate `(a) => a && a.map && a.map.summary_polyline`
(src/server.js line 179): truthy element, truthy `map`, truthy (present,
non-empty) `summary_polyline`. -/
def keepActivity (e : RawEntry) : Bool :=
  match e with
  | none => false
  | some a =>
    match a.map with
    | none => false
    | some m =>
      match m.summary_polyline with
      | none => false
      | some p => p != ""

/-- The projection at src/server.js lines 180-187. The `none` branches are
unreachable behind `keepActivity` and return placeholder fields. -/
def projectActivity (e : RawEntry) : RouteRecord :=
  match e with
  | none => { id := 0, name := "", sport_type := none, start_date := "", distance := 0, polyline := "" }
  | some a =>
    { id := a.id
      name := a.name
      sport_type := jsOrStr a.sport_type a.type
      start_date := a.start_date
      distance := a.distance
      polyline :=
        match a.map with
        | none => ""
        | some m =>
          match m.summary_polyline with
          | none => ""
          | some p => p }

/-- `cleaned` (src/server.js lines 178-187): filter then map. -/
def cleaned (all : List RawEntry) : List RouteRecord :=
  (all.filter keepActivity).map projectActivity

/-- Outcome of one GET to the Strava activities endpoint. -/
inductive PageResp where
  | ok (batch : List RawEntry)
  | httpError (status : Nat) (body : String)
deriving DecidableEq, Repr

/-- The environment of one `/api/activities` request: the wall clock and
the token endpoint's answer at the i-th page request (i counting from 0),
and the activities endpoint's answer for a given `page` and `per_page`. -/
structure FetchEnv where
  now : Nat → Int
  refresh : Nat → TokenEndpointResult
  pages : Nat → Nat → PageResp

/-- Request-scoped bookkeeping threaded through the pagination loop:
the session token record, the log of `(page, per_page)` pairs sent to the
activities endpoint in order, the number of `refreshIfNeeded` invocations,
and the number of refresh-grant calls those invocations actually made. -/
structure FetchState where
  sess : Option TokenRecord
  reqs : List (Nat × Nat)
  freshChecks : Nat
  grantCalls : Nat
deriving DecidableEq, Repr

/-- `stravaFetch` (src/server.js lines 97-111) for one activities page:
first `await refreshIfNeeded(req)`, then the GET with `per_page = 200` and
the given page number. The page request is issued regardless of the
refresh outcome. -/
def stravaFetchStep (env : FetchEnv) (st : FetchState) (page : Nat) :
    FetchState × PageResp :=
  let i := st.freshChecks
  let r := refreshIfNeeded st.sess (env.now i) (env.refresh i)
  ({ sess := r.1
     reqs := st.reqs ++ [(page, 200)]
     freshChecks := st.freshChecks + 1
     grantCalls := st.grantCalls + r.2 },
   env.pages page 200)

/-- Error thrown by `stravaFetch` on a non-success status: the upstream
status and response text (src/server.js lines 106-109). -/
structure UpstreamApiError where
  status : Nat
  body : String
deriving DecidableEq, Repr

/-- The `while (true)` pagination loop of `GET /api/activities`
(src/server.js lines 165-176), structurally recursing on
`remaining = 20 - page` so that the `page += 1; if (page > 20) break`
cap check becomes the `remaining = 0` case. Started at `page = 1`,
`remaining = 19`. A thrown `UpstreamApiError` aborts the loop. -/
def fetchLoop (env : FetchEnv) :
    Nat → Nat → List RawEntry → FetchState →
    FetchState × Except UpstreamApiError (List RawEntry)
  | remaining, page, acc, st =>
    match stravaFetchStep env st page with
    | (st1, .httpError status body) => (st1, .error ⟨status, body⟩)
    | (st1, .ok batch) =>
      let all := acc ++ batch
      if batch.length = 0 ∨ batch.length < 200 then (st1, .ok all)
      else
        match remaining with
        | 0 => (st1, .ok all)
        | r + 1 => fetchLoop env r (page + 1) all st1

/-- Response of `GET /api/activities`. -/
inductive ApiResponse where
  | unauthorized
  | ok (activities : List RouteRecord)
  | serverError (message : String)
deriving DecidableEq, Repr

/-- The initial bookkeeping state for one request. -/
def initState (sess : Option TokenRecord) : FetchState :=
  { sess := sess, reqs := [], freshChecks := 0, grantCalls := 0 }

/-- `GET /api/activities` (src/server.js lines 154-194): 401 when not
authenticated; otherwise run the pagination loop from page 1, normalize
with `cleaned` on success, and turn a thrown `UpstreamApiError` into a 500
whose message is `e.message`, i.e. the string built at line 108. -/
def apiActivities (env : FetchEnv) (sess : Option TokenRecord) :
    ApiResponse × FetchState :=
  if isAuthed sess = false then (.unauthorized, initState sess)
  else
    match fetchLoop env 19 1 [] (initState sess) with
    | (st, .error e) =>
        (.serverError ("Strava API error " ++ toString e.status ++ ": " ++ e.body), st)
    | (st, .ok all) => (.ok (cleaned all), st)

/-- One variable-length chunk of `decodePolyline` (src/server.js line 360
or 363): the inner `do { byte = str.charCodeAt(index++) - 63;
result |= (byte & 0x1f) << shift; shift += 5; } while (byte >= 0x20)`.
Returns the accumulated `result` and the unconsumed rest of the string.
The chunks of a valid polyline stay far below 2^31, where JavaScript's
32-bit `|`/`<<` agree with unbounded `Nat` arithmetic (characters are
≥ 63, so `charCode − 63` is non-negative). Running off the end of the
string (JS: `charCodeAt` returns NaN, `NaN >= 0x20` is false) ends the
chunk. -/
def decodeChunk : List Char → Nat → Nat → Nat × List Char
  | [], _, result => (result, [])
  | c :: rest, shift, result =>
    let byte := c.toNat - 63
    let result1 := result ||| ((byte &&& 0x1f) <<< shift)
    if byte ≥ 0x20 then decodeChunk rest (shift + 5) result1
    else (result1, rest)

/-- Sign extension at src/server.js lines 361/364:
`(result & 1) ? ~(result >> 1) : (result >> 1)` for a non-negative 32-bit
`result`; `~x = -x - 1`. -/
def signedValue (result : Nat) : Int :=
  if result % 2 = 1 then -((result / 2 : Int) + 1) else (result / 2 : Int)

/-- The `while (index < str.length)` loop of `decodePolyline`
(src/server.js lines 358-367), producing the running integer accumulators
for each point. Each iteration consumes at least one character, so the
string's length is enough fuel and the `fuel = 0` branch with a non-empty
string is never reached. -/
def decodeLoop : Nat → List Char → Int → Int → List (Int × Int)
  | 0, _, _, _ => []
  | _, [], _, _ => []
  | fuel + 1, c :: rest, lat, lng =>
    let p1 := decodeChunk (c :: rest) 0 0
    let latitude_change := signedValue p1.1
    let p2 := decodeChunk p1.2 0 0
    let longitude_change := signedValue p2.1
    let lat1 := lat + latitude_change
    let lng1 := lng + longitude_change
    (lat1, lng1) :: decodeLoop fuel p2.2 lat1 lng1

/-- `decodePolyline(str, precision)` (src/server.js lines 355-369) with the
final division by `factor = 10^precision` done exactly in `ℚ`. -/
def decodePolyline (str : String) (precision : Nat) : List (ℚ × ℚ) :=
  let factor : ℚ := 10 ^ precision
  (decodeLoop str.length str.toList 0 0).map
    (fun p => ((p.1 : ℚ) / factor, (p.2 : ℚ) / factor))

/-- `decodePolyline(str)` with the defaulted precision 5
(`Math.pow(10, precision || 5)`). -/
def decodePolylineDefault (str : String) : List (ℚ × ℚ) :=
  decodePolyline str 5

/-- JavaScript `Math.round`: half-up rounding, `⌊x + 1/2⌋`. -/
def jsRound (q : ℚ) : Int :=
  ⌊q + 1 / 2⌋

/-- The cell key of `pushPoint` (src/server.js lines 511-513): latitude and
longitude independently rounded to 4 decimal places. Distinct rounded
pairs give distinct JS string keys `rlat + ',' + rlng`, so the key is the
pair itself. -/
def gridKey (lat lng : ℚ) : ℚ × ℚ :=
  ((jsRound (lat * 10000) : ℚ) / 10000, (jsRound (lng * 10000) : ℚ) / 10000)

/-- The frequency map `freq` of `renderRoutes`, as an association list from
cell keys to weights. -/
abbrev Freq := List ((ℚ × ℚ) × Nat)

/-- `freq.get(key)` / `v.w += 1` / `freq.set(key, v)`
(src/server.js lines 514-517): increment the key's weight, creating the
cell with weight 1 on first touch. -/
def bump (freq : Freq) (k : ℚ × ℚ) : Freq :=
  match freq with
  | [] => [(k, 1)]
  | (k1, w) :: rest => if k1 = k then (k1, w + 1) :: rest else (k1, w) :: bump rest k

/-- `pushPoint(lat, lng)` (src/server.js lines 510-519), minus the
`bounds` side channel, which the claims do not concern. -/
def pushPoint (freq : Freq) (lat lng : ℚ) : Freq :=
  bump freq (gridKey lat lng)

/-- The densification step count `Math.max(0, Math.floor(dist / 0.0005))`
with `dist = Math.sqrt(dLat^2 + dLng^2)` (src/server.js lines 530-531),
computed exactly: over the reals,
`⌊sqrt d2 / 0.0005⌋ = Nat.sqrt ⌊d2 * 2000^2⌋` for `d2 ≥ 0`, and the
`max 0` is implicit in `Nat`. -/
def jsSteps (dLat dLng : ℚ) : Nat :=
  Nat.sqrt (⌊(dLat ^ 2 + dLng ^ 2) * 2000 ^ 2⌋).toNat

/-- The interpolated points inserted between consecutive coordinates `c`
and `n` (src/server.js lines 532-536): for `s = 1 .. steps`,
`c + d * s / (steps + 1)` on each axis. -/
def interpPoints (c n : ℚ × ℚ) : List (ℚ × ℚ) :=
  let dLat := n.1 - c.1
  let dLng := n.2 - c.2
  let steps := jsSteps dLat dLng
  (List.range steps).map
    (fun s => (c.1 + dLat * (s + 1 : ℚ) / (steps + 1 : ℚ),
               c.2 + dLng * (s + 1 : ℚ) / (steps + 1 : ℚ)))

/-- The heatmap deposit loop over one decoded coordinate sequence
(src/server.js lines 522-538): every real point is pushed; between each
consecutive pair the interpolated points are pushed as well. -/
def depositCoords : Freq → List (ℚ × ℚ) → Freq
  | freq, [] => freq
  | freq, [c] => pushPoint freq c.1 c.2
  | freq, c :: n :: rest =>
    let f1 := pushPoint freq c.1 c.2
    let f2 := (interpPoints c n).foldl (fun f p => pushPoint f p.1 p.2) f1
    depositCoords f2 (n :: rest)

/-- Total weight of a frequency map. -/
def sumWeights (freq : Freq) : Nat :=
  (freq.map (fun c => c.2)).sum

/-- The ascending list of page numbers `a, a+1, ..., b`. -/
def pageRange (a b : Nat) : List Nat :=
  (List.range (b + 1 - a)).map (a + ·)

/-- The concatenation, in ascending page order, of the batches for pages
`a .. b`. -/
def joinBats (bat : Nat → List RawEntry) (a b : Nat) : List RawEntry :=
  ((pageRange a b).map bat).flatten

/-! Concrete records used to instantiate the theorems below. -/

/-- A session token record that is inside the refresh-ahead window at
`now = 0`. -/
def dataW : TokenRecord :=
  { access_token := "old-access", refresh_token := some "old-refresh"
    expires_at := some 100, athlete := some ⟨"Alice"⟩ }

/-- A refresh response omitting the athlete profile. -/
def jsonW : OAuthTokenJson :=
  { access_token := "new-access", refresh_token := some "new-refresh"
    expires_at := some 2000, athlete := none }

/-- A token record with no `expires_at` field. -/
def dataZW : TokenRecord :=
  { access_token := "tok", refresh_token := some "r", expires_at := none, athlete := none }

/-- A token record whose `expires_at` is the (falsy) number 0. -/
def recZeroW : TokenRecord :=
  { access_token := "tok", refresh_token := some "r", expires_at := some 0, athlete := none }

/-- A token record expiring 301 seconds after `now = 1000`. -/
def dataW301 : TokenRecord :=
  { access_token := "tok", refresh_token := some "r", expires_at := some 1301, athlete := none }

/-- A token record expiring 299 seconds after `now = 1000`. -/
def dataW299 : TokenRecord :=
  { access_token := "tok", refresh_token := some "r", expires_at := some 1299, athlete := none }

/-- A session that has just stored the authorization state `"s"`. -/
def sessW : Session := { strava := none, oauth_state := some "s" }

/-- A token-exchange response. -/
def tokW : OAuthTokenJson :=
  { access_token := "at1", refresh_token := some "rt1", expires_at := some 111, athlete := none }

/-- A second, different token-exchange response. -/
def tokW2 : OAuthTokenJson :=
  { access_token := "at2", refresh_token := some "rt2", expires_at := some 222, athlete := none }

/-- An authenticated session record far from expiry. -/
def recAuthW : TokenRecord :=
  { access_token := "bearer", refresh_token := some "r"
    expires_at := some 1000000000, athlete := none }

/-- An upstream that answers every activities page with an empty batch. -/
def batW : Nat → List RawEntry := fun _ => []

/-- A fetch environment whose activities endpoint always returns an empty
page. -/
def envW : FetchEnv :=
  { now := fun _ => 0, refresh := fun _ => .httpError 500 "down"
    pages := fun _ _ => .ok [] }

/-- A fetch environment whose activities endpoint always fails. -/
def envEW : FetchEnv :=
  { now := fun _ => 0, refresh := fun _ => .httpError 500 "down"
    pages := fun _ _ => .httpError 503 "boom" }

/-- A raw activity carrying a non-empty summary polyline and both sport
fields. -/
def rawW : RawActivity :=
  { id := 7, name := "Morning Ride", sport_type := some "GravelRide"
    type := some "Ride", start_date := "2024-05-01T08:00:00Z"
    distance := 42195 / 1000, map := some { summary_polyline := some "_p~iF~ps|U" } }

/-- A raw activity with no `map` object. -/
def rawNoMapW : RawActivity :=
  { id := 8, name := "Swim", sport_type := none, type := some "Swim"
    start_date := "2024-05-02T08:00:00Z", distance := 1000, map := none }

/-- Two coordinates 0.001 degrees apart. -/
def coordsW : List (ℚ × ℚ) := [(1 / 2, 1 / 3), (1 / 2 + 1 / 1000, 1 / 3)]

/-- C1: when the refresh call succeeds, `refreshIfNeeded` replaces the
session's token record wholesale in a single assignment: access token and
expiry both come from the response, the refresh token is the response's
when provided, and the athlete profile falls back to the old record when
the response omits it; no old-access/new-expiry record is ever stored. -/
theorem C1_refresh_success_full_swap (data : TokenRecord) (json : OAuthTokenJson)
    (now : Int) (hdue : refreshDue data now = true) :
    refreshIfNeeded (some data) now (.ok json) =
      (some { access_token := json.access_token
              refresh_token := json.refresh_token
              expires_at := json.expires_at
              athlete := jsOrAthlete json.athlete data.athlete }, 1) ∧
    (∀ r, json.refresh_token = some r →
      (jsOrAthlete json.athlete data.athlete, json.refresh_token).2 = some r) ∧
    (json.athlete = none → jsOrAthlete json.athlete data.athlete = data.athlete) := by
  refine ⟨by simp [refreshIfNeeded, hdue], fun r hr => hr, fun ha => ?_⟩
  simp [jsOrAthlete, ha]

/-- Witness for C1 at a concrete record and refresh response. -/
theorem C1_witness :
    refreshIfNeeded (some dataW) 0 (.ok jsonW) =
      (some { access_token := jsonW.access_token
              refresh_token := jsonW.refresh_token
              expires_at := jsonW.expires_at
              athlete := jsOrAthlete jsonW.athlete dataW.athlete }, 1) :=
  (C1_refresh_success_full_swap dataW jsonW 0 (by decide)).1

/-- C4: when the refresh call fails with a non-success status,
`refreshIfNeeded` keeps the stale record completely unchanged and returns
normally (the failure is only logged); and the page request of
`stravaFetch` is issued regardless of the refresh outcome, so the
surrounding request proceeds. -/
theorem C4_refresh_failure_degrades (data : TokenRecord) (now : Int)
    (status : Nat) (body : String)
    (hdue : refreshDue data now = true) :
    refreshIfNeeded (some data) now (.httpError status body) = (some data, 1) ∧
    (∀ env st page, (stravaFetchStep env st page).2 = env.pages page 200) := by
  exact ⟨by simp [refreshIfNeeded, hdue], fun env st page => rfl⟩

/-- Witness for C4 at a concrete stale record and failing endpoint. -/
theorem C4_witness :
    refreshIfNeeded (some dataW) 0 (.httpError 500 "oops") = (some dataW, 1) :=
  (C4_refresh_failure_degrades dataW 0 500 "oops" (by decide)).1

/-- C10: a token record whose `expires_at` is absent/null (`none`) or the
falsy number 0 is never proactively refreshed — `refreshIfNeeded` makes no
call and leaves it unchanged at every time — while `isAuthed` still
accepts the session whenever the access token is non-empty. -/
theorem C10_falsy_expiry_never_refreshed (data : TokenRecord) (now : Int)
    (resp : TokenEndpointResult)
    (h : data.expires_at = none ∨ data.expires_at = some 0) :
    refreshIfNeeded (some data) now resp = (some data, 0) ∧
    (data.access_token ≠ "" → isAuthed (some data) = true) := by
  constructor
  · rcases h with h | h <;> simp [refreshIfNeeded, refreshDue, h]
  · intro ha
    simp [isAuthed, ha]

/-- Witness for C10 at a concrete record with no `expires_at`. -/
theorem C10_witness :
    refreshIfNeeded (some dataZW) 123456 (.ok jsonW) = (some dataZW, 0) :=
  (C10_falsy_expiry_never_refreshed dataZW 123456 (.ok jsonW) (Or.inl rfl)).1

/-- Counterexample to C3 as stated: the record `recZeroW` has
`expires_at = 0`, so `expires_at − now = −1000 ≤ 300` at `now = 1000`, yet
`refreshIfNeeded` performs no refresh call — the claimed "if and only if"
fails because the code first tests `expires_at` for truthiness. -/
theorem C3_counterexample :
    ¬ (((refreshIfNeeded (some recZeroW) 1000 (.ok jsonW)).2 = 1) ↔
        ((0 : Int) - 1000 ≤ 300)) := by decide

/-- C3 (amended): `refreshIfNeeded` is a no-op on an absent record, and on
a present record performs a refresh call iff `expires_at` is present and
nonzero with `expires_at − now ≤ 300`; in particular a truthy
`expires_at = now + 301` causes no call and leaves the record unchanged,
and a truthy `expires_at = now + 299` causes exactly one call, replacing
the record atomically when the call succeeds. -/
theorem C3_refresh_window (now : Int) (resp : TokenEndpointResult) :
    refreshIfNeeded none now resp = (none, 0) ∧
    (∀ data : TokenRecord,
      ((refreshIfNeeded (some data) now resp).2 = 1 ↔
        ∃ e, data.expires_at = some e ∧ e ≠ 0 ∧ e - now ≤ 300)) ∧
    (∀ data : TokenRecord, data.expires_at = some (now + 301) →
      refreshIfNeeded (some data) now resp = (some data, 0)) ∧
    (∀ data : TokenRecord, data.expires_at = some (now + 299) → now + 299 ≠ 0 →
      (refreshIfNeeded (some data) now resp).2 = 1 ∧
      (∀ json, resp = .ok json →
        refreshIfNeeded (some data) now resp =
          (some { access_token := json.access_token
                  refresh_token := json.refresh_token
                  expires_at := json.expires_at
                  athlete := jsOrAthlete json.athlete data.athlete }, 1))) := by
  refine ⟨rfl, fun data => ?_, fun data he => ?_, fun data he hnz => ?_⟩
  · by_cases hdue : refreshDue data now = true
    · have h1 : (refreshIfNeeded (some data) now resp).2 = 1 := by
        cases resp <;> simp [refreshIfNeeded, hdue]
      refine ⟨fun _ => ?_, fun _ => h1⟩
      rcases hde : data.expires_at with _ | e
      · rw [refreshDue, hde] at hdue; exact absurd hdue (by simp)
      · refine ⟨e, rfl, ?_, ?_⟩
        · intro h0
          rw [refreshDue, hde, h0] at hdue
          simp at hdue
        · rw [refreshDue, hde] at hdue
          simpa using (Bool.and_elim_right hdue)
    · have h0 : refreshIfNeeded (some data) now resp = (some data, 0) := by
        simp [refreshIfNeeded, Bool.eq_false_iff.mpr hdue]
      rw [h0]
      simp only [ne_eq]
      constructor
      · intro h1; exact absurd h1 (by simp)
      · rintro ⟨e, hde, hz, hle⟩
        exfalso
        apply hdue
        rw [refreshDue, hde]
        simp [hz, hle]
  · have hdue : refreshDue data now = false := by
      rw [refreshDue, he]
      have : ¬ (now + 301 - now ≤ 300) := by omega
      simp [this]
    simp [refreshIfNeeded, hdue]
  · have hdue : refreshDue data now = true := by
      rw [refreshDue, he]
      have h1 : now + 299 - now ≤ 300 := by omega
      simp [hnz, h1]
    constructor
    · cases resp <;> simp [refreshIfNeeded, hdue]
    · intro json hj
      rw [hj]
      simp [refreshIfNeeded, hdue]

/-- Witness for C3 (amended): the `now + 301` record is left alone at
`now = 1000`. -/
theorem C3_witness :
    refreshIfNeeded (some dataW301) 1000 (.ok jsonW) = (some dataW301, 0) :=
  (C3_refresh_window 1000 (.ok jsonW)).2.2.1 dataW301 (by decide)

/-- C8: the polyline decoder, run on the published reference string at the
default precision 5, reproduces the published reference coordinate
sequence (38.5, −120.2), (40.7, −120.95), (43.252, −126.453) exactly in
`ℚ` — in particular within 1e-5 degrees. -/
theorem C8_reference_decode :
    decodePolylineDefault "_p~iF~ps|U_ulLnnqC_mqNvxq`@" =
      [((77 : ℚ) / 2, -(601 : ℚ) / 5), ((407 : ℚ) / 10, -(2419 : ℚ) / 20),
       ((10813 : ℚ) / 250, -(126453 : ℚ) / 1000)] := by
  have h : decodeLoop ("_p~iF~ps|U_ulLnnqC_mqNvxq`@").length
      ("_p~iF~ps|U_ulLnnqC_mqNvxq`@").toList 0 0 =
      [(3850000, -12020000), (4070000, -12095000), (4325200, -12645300)] := by decide
  unfold decodePolylineDefault decodePolyline
  rw [h]
  norm_num

/-- Counterexample to C2 as stated: after one accepted callback on the
session `sessW` (stored state `"s"`), the stored state is not consumed —
it is still `"s"` — and a second callback presenting the same state value,
with no intervening `/auth` redirect, is accepted again and installs a
fresh token record. -/
theorem C2_counterexample :
    (callbackRoute sessW (some "c") (some "s") (.ok tokW)).2 = .redirectHome ∧
    (callbackRoute sessW (some "c") (some "s") (.ok tokW)).1.oauth_state = some "s" ∧
    (callbackRoute (callbackRoute sessW (some "c") (some "s") (.ok tokW)).1
        (some "c") (some "s") (.ok tokW2)).2 = .redirectHome ∧
    (callbackRoute (callbackRoute sessW (some "c") (some "s") (.ok tokW)).1
        (some "c") (some "s") (.ok tokW2)).1.strava =
      some { access_token := "at2", refresh_token := some "rt2"
             expires_at := some 222, athlete := none } := by decide

/-- C2 (amended): a callback is accepted only when its `state` parameter
equals the value stored in the session — on a mismatch it returns HTTP 400
without installing a token record — but the stored state is never
consumed: `oauth_state` survives every callback unchanged, so the same
state value is accepted again until a new `/auth` redirect supersedes it
or the session is cleared. -/
theorem C2_state_check (sess : Session) (code state : Option String)
    (exch : TokenEndpointResult) :
    (truthyStr code = true → state ≠ sess.oauth_state →
      callbackRoute sess code state exch = (sess, .badRequest "Invalid state")) ∧
    (truthyStr code = false →
      callbackRoute sess code state exch = (sess, .badRequest "Missing code")) ∧
    ((callbackRoute sess code state exch).2 = .redirectHome →
      state = sess.oauth_state) ∧
    (callbackRoute sess code state exch).1.oauth_state = sess.oauth_state ∧
    (authRoute sess "fresh").oauth_state = some "fresh" := by
  refine ⟨fun hc hs => ?_, fun hc => ?_, fun hr => ?_, ?_, rfl⟩
  · simp [callbackRoute, hc, hs]
  · simp [callbackRoute, hc]
  · by_contra hs
    rw [callbackRoute.eq_def] at hr
    by_cases hc : truthyStr code = false <;> simp [hc, hs] at hr
  · rw [callbackRoute.eq_def]
    by_cases hc : truthyStr code = false
    · simp [hc]
    · by_cases hs : state = sess.oauth_state <;>
        cases exch <;> simp [hc, hs, authRoute]

/-- Witness for C2 (amended): a mismatched state at a concrete session is
rejected with 400 and the session is untouched. -/
theorem C2_witness :
    callbackRoute sessW (some "c") (some "wrong") (.ok tokW) =
      (sessW, .badRequest "Invalid state") :=
  (C2_state_check sessW (some "c") (some "wrong") (.ok tokW)).1 (by decide) (by decide)

/-- C7: normalization is a pure, total, order-preserving map over raw
entries — it distributes over concatenation, drops exactly the entries
lacking a truthy encoded path, and on each kept record copies `id`,
`name`, `start_date`, `distance` verbatim while choosing `sport_type` with
`a.sport_type || a.type`, which prefers a present non-empty specific-sport
field over the general-type field. -/
theorem C7_normalize (xs ys : List RawEntry) :
    cleaned (xs ++ ys) = cleaned xs ++ cleaned ys ∧
    (∀ e : RawEntry, keepActivity e = false → cleaned [e] = []) ∧
    (∀ (a : RawActivity) (m : RawMap) (p : String),
      a.map = some m → m.summary_polyline = some p → p ≠ "" →
      cleaned [some a] =
        [{ id := a.id, name := a.name
           sport_type := jsOrStr a.sport_type a.type
           start_date := a.start_date, distance := a.distance
           polyline := p }]) ∧
    (∀ s t : String, s ≠ "" → jsOrStr (some s) (some t) = some s) := by
  refine ⟨?_, fun e he => ?_, fun a m p hm hp hne => ?_, fun s t hs => ?_⟩
  · simp [cleaned]
  · simp [cleaned, he]
  · have hk : keepActivity (some a) = true := by
      simp [keepActivity, hm, hp, hne]
    simp [cleaned, hk, projectActivity, hm, hp]
  · simp [jsOrStr, hs]

/-- Witness for C7 at concrete activities: a list with one kept and one
dropped entry normalizes to exactly the kept record. -/
theorem C7_witness :
    cleaned ([some rawW] ++ [none]) = cleaned [some rawW] ++ cleaned [none] ∧
    cleaned [some rawNoMapW] = [] ∧
    cleaned [some rawW] =
      [{ id := rawW.id, name := rawW.name
         sport_type := jsOrStr rawW.sport_type rawW.type
         start_date := rawW.start_date, distance := rawW.distance
         polyline := "_p~iF~ps|U" }] ∧
    jsOrStr (some "GravelRide") (some "Ride") = some "GravelRide" :=
  ⟨(C7_normalize [some rawW] [none]).1,
   (C7_normalize [] []).2.1 (some rawNoMapW) (by decide),
   (C7_normalize [] []).2.2.1 rawW { summary_polyline := some "_p~iF~ps|U" }
     "_p~iF~ps|U" rfl rfl (by decide),
   (C7_normalize [] []).2.2.2 "GravelRide" "Ride" (by decide)⟩

/-- `bump` preserves positivity of all weights. -/
theorem bump_weight_pos (freq : Freq) (k : ℚ × ℚ)
    (h : ∀ c ∈ freq, 1 ≤ c.2) : ∀ c ∈ bump freq k, 1 ≤ c.2 := by
  induction freq with
  | nil =>
    intro c hc
    simp [bump] at hc
    simp [hc]
  | cons hd tl ih =>
    obtain ⟨k1, w⟩ := hd
    intro c hc
    rw [bump] at hc
    by_cases hk : k1 = k
    · rw [if_pos hk] at hc
      rcases List.mem_cons.mp hc with hc | hc
      · subst hc; simp
      · exact h c (List.mem_cons_of_mem _ hc)
    · rw [if_neg hk] at hc
      rcases List.mem_cons.mp hc with hc | hc
      · subst hc
        exact h (k1, w) (by simp)
      · exact ih (fun c hm => h c (List.mem_cons_of_mem _ hm)) c hc

/-- `bump` increases the total weight by exactly one. -/
theorem bump_sum (freq : Freq) (k : ℚ × ℚ) :
    sumWeights (bump freq k) = sumWeights freq + 1 := by
  induction freq with
  | nil => simp [bump, sumWeights]
  | cons hd tl ih =>
    obtain ⟨k1, w⟩ := hd
    rw [bump]
    by_cases hk : k1 = k
    · rw [if_pos hk]
      simp [sumWeights]
      omega
    · rw [if_neg hk]
      simp [sumWeights] at ih ⊢
      omega

/-- Folding `pushPoint` over a point list preserves weight positivity. -/
theorem foldl_push_pos (l : List (ℚ × ℚ)) :
    ∀ freq : Freq, (∀ c ∈ freq, 1 ≤ c.2) →
      ∀ c ∈ l.foldl (fun f p => pushPoint f p.1 p.2) freq, 1 ≤ c.2 := by
  induction l with
  | nil => intro freq h; simpa using h
  | cons hd tl ih =>
    intro freq h
    simp only [List.foldl_cons]
    exact ih _ (bump_weight_pos freq _ h)

/-- Folding `pushPoint` over a point list adds its length to the total
weight. -/
theorem foldl_push_sum (l : List (ℚ × ℚ)) :
    ∀ freq : Freq,
      sumWeights (l.foldl (fun f p => pushPoint f p.1 p.2) freq) =
        sumWeights freq + l.length := by
  induction l with
  | nil => intro freq; simp
  | cons hd tl ih =>
    intro freq
    simp only [List.foldl_cons, List.length_cons]
    rw [ih, pushPoint, bump_sum]
    omega

/-- `depositCoords` preserves weight positivity. -/
theorem depositCoords_pos (coords : List (ℚ × ℚ)) :
    ∀ freq : Freq, (∀ c ∈ freq, 1 ≤ c.2) →
      ∀ c ∈ depositCoords freq coords, 1 ≤ c.2 := by
  induction coords with
  | nil => intro freq h; simpa [depositCoords] using h
  | cons c0 rest ih =>
    intro freq h
    cases rest with
    | nil =>
      simpa [depositCoords] using bump_weight_pos freq _ h
    | cons n rest2 =>
      rw [depositCoords]
      exact ih _ (foldl_push_pos _ _ (bump_weight_pos freq _ h))

/-- `depositCoords` adds at least one unit of weight per real coordinate. -/
theorem depositCoords_sum (coords : List (ℚ × ℚ)) :
    ∀ freq : Freq,
      sumWeights freq + coords.length ≤ sumWeights (depositCoords freq coords) := by
  induction coords with
  | nil => intro freq; simp [depositCoords]
  | cons c0 rest ih =>
    intro freq
    cases rest with
    | nil => simp [depositCoords, pushPoint, bump_sum]
    | cons n rest2 =>
      rw [depositCoords]
      have hmid : sumWeights ((interpPoints c0 n).foldl
          (fun f p => pushPoint f p.1 p.2) (pushPoint freq c0.1 c0.2)) =
          sumWeights freq + 1 + (interpPoints c0 n).length := by
        rw [foldl_push_sum, pushPoint, bump_sum]
      have h1 := ih ((interpPoints c0 n).foldl
        (fun f p => pushPoint f p.1 p.2) (pushPoint freq c0.1 c0.2))
      rw [hmid] at h1
      simp only [List.length_cons] at h1 ⊢
      omega

/-- C9: for every coordinate sequence of length at least 2, the heatmap
aggregation deposits every real point and the interpolated points into
4-decimal grid cells, each deposit incrementing the touched cell by 1 and
creating it at weight 1 on first touch — hence every output cell weight is
at least 1 and the total weight is at least the number of real points. -/
theorem C9_heatmap_weights (coords : List (ℚ × ℚ)) (_h2 : 2 ≤ coords.length) :
    (∀ c ∈ depositCoords [] coords, 1 ≤ c.2) ∧
    coords.length ≤ sumWeights (depositCoords [] coords) := by
  refine ⟨depositCoords_pos coords [] (by simp), ?_⟩
  have h := depositCoords_sum coords []
  simpa [sumWeights] using h

/-- Witness for C9 at two concrete coordinates 0.001 degrees apart. -/
theorem C9_witness :
    coordsW.length ≤ sumWeights (depositCoords [] coordsW) :=
  (C9_heatmap_weights coordsW (by decide)).2

/-- Second component of one `stravaFetch` step: the activities-endpoint
response for this page. -/
theorem stravaFetchStep_snd (env : FetchEnv) (st : FetchState) (page : Nat) :
    (stravaFetchStep env st page).2 = env.pages page 200 := rfl

/-- One `stravaFetch` step logs exactly one `(page, 200)` request. -/
theorem stepState_reqs (env : FetchEnv) (st : FetchState) (page : Nat) :
    (stravaFetchStep env st page).1.reqs = st.reqs ++ [(page, 200)] := rfl

/-- One `stravaFetch` step performs exactly one token-freshness check,
before the page request. -/
theorem stepState_fresh (env : FetchEnv) (st : FetchState) (page : Nat) :
    (stravaFetchStep env st page).1.freshChecks = st.freshChecks + 1 := rfl

/-- Unfolding of one iteration of the pagination loop. -/
theorem fetchLoop_unfold (env : FetchEnv) (remaining page : Nat)
    (acc : List RawEntry) (st : FetchState) :
    fetchLoop env remaining page acc st =
      match stravaFetchStep env st page with
      | (st1, .httpError status body) => (st1, .error ⟨status, body⟩)
      | (st1, .ok batch) =>
        if batch.length = 0 ∨ batch.length < 200 then (st1, .ok (acc ++ batch))
        else
          match remaining with
          | 0 => (st1, .ok (acc ++ batch))
          | r + 1 => fetchLoop env r (page + 1) (acc ++ batch) st1 := by
  rw [fetchLoop]

/-- The loop stops (successfully) on a short page, whatever the remaining
page budget. -/
theorem fetchLoop_stop_short (env : FetchEnv) (remaining page : Nat)
    (acc : List RawEntry) (st : FetchState) (batch : List RawEntry)
    (hp : env.pages page 200 = .ok batch)
    (hlt : batch.length = 0 ∨ batch.length < 200) :
    fetchLoop env remaining page acc st =
      ((stravaFetchStep env st page).1, .ok (acc ++ batch)) := by
  have h2 : (stravaFetchStep env st page).2 = PageResp.ok batch := by
    rw [stravaFetchStep_snd, hp]
  have hstep : stravaFetchStep env st page =
      ((stravaFetchStep env st page).1, .ok batch) := by rw [← h2]
  rw [fetchLoop_unfold, hstep]
  simp only [if_pos hlt]

/-- The loop aborts with the upstream error on a non-success page. -/
theorem fetchLoop_error_step (env : FetchEnv) (remaining page : Nat)
    (acc : List RawEntry) (st : FetchState) (status : Nat) (body : String)
    (hp : env.pages page 200 = .httpError status body) :
    fetchLoop env remaining page acc st =
      ((stravaFetchStep env st page).1, .error ⟨status, body⟩) := by
  have h2 : (stravaFetchStep env st page).2 = PageResp.httpError status body := by
    rw [stravaFetchStep_snd, hp]
  have hstep : stravaFetchStep env st page =
      ((stravaFetchStep env st page).1, .httpError status body) := by rw [← h2]
  rw [fetchLoop_unfold, hstep]

/-- With a full page and an exhausted budget (`page` was 20), the loop
stops at the cap. -/
theorem fetchLoop_full_cap (env : FetchEnv) (page : Nat)
    (acc : List RawEntry) (st : FetchState) (batch : List RawEntry)
    (hp : env.pages page 200 = .ok batch) (hlen : batch.length = 200) :
    fetchLoop env 0 page acc st =
      ((stravaFetchStep env st page).1, .ok (acc ++ batch)) := by
  have h2 : (stravaFetchStep env st page).2 = PageResp.ok batch := by
    rw [stravaFetchStep_snd, hp]
  have hstep : stravaFetchStep env st page =
      ((stravaFetchStep env st page).1, .ok batch) := by rw [← h2]
  have hc : ¬ (batch.length = 0 ∨ batch.length < 200) := by rw [hlen]; omega
  rw [fetchLoop_unfold, hstep]
  simp only [if_neg hc]

/-- With a full page and remaining budget, the loop continues with the
next page. -/
theorem fetchLoop_full_next (env : FetchEnv) (r page : Nat)
    (acc : List RawEntry) (st : FetchState) (batch : List RawEntry)
    (hp : env.pages page 200 = .ok batch) (hlen : batch.length = 200) :
    fetchLoop env (r + 1) page acc st =
      fetchLoop env r (page + 1) (acc ++ batch) ((stravaFetchStep env st page).1) := by
  have h2 : (stravaFetchStep env st page).2 = PageResp.ok batch := by
    rw [stravaFetchStep_snd, hp]
  have hstep : stravaFetchStep env st page =
      ((stravaFetchStep env st page).1, .ok batch) := by rw [← h2]
  have hc : ¬ (batch.length = 0 ∨ batch.length < 200) := by rw [hlen]; omega
  rw [fetchLoop_unfold, hstep]
  simp only [if_neg hc]

/-- `pageRange a a` is the single page `a`. -/
theorem pageRange_single (a : Nat) : pageRange a a = [a] := by
  unfold pageRange
  have h1 : a + 1 - a = 1 := by omega
  rw [h1]
  simp [List.range_succ]

/-- `pageRange` peels its first page. -/
theorem pageRange_cons (a b : Nat) (h : a ≤ b) :
    pageRange a b = a :: pageRange (a + 1) b := by
  unfold pageRange
  have h1 : b + 1 - a = (b - a) + 1 := by omega
  have h2 : b + 1 - (a + 1) = b - a := by omega
  rw [h1, h2, List.range_succ_eq_map, List.map_cons, List.map_map]
  refine congrArg₂ List.cons (by omega) ?_
  apply List.map_congr_left
  intro x _
  simp [Function.comp]
  omega

/-- `joinBats bat a a` is the single batch for page `a`. -/
theorem joinBats_single (bat : Nat → List RawEntry) (a : Nat) :
    joinBats bat a a = bat a := by
  unfold joinBats
  rw [pageRange_single]
  simp

/-- `joinBats` peels its first batch. -/
theorem joinBats_cons (bat : Nat → List RawEntry) (a b : Nat) (h : a ≤ b) :
    joinBats bat a b = bat a ++ joinBats bat (a + 1) b := by
  unfold joinBats
  rw [pageRange_cons a b h]
  simp

/-- The pagination loop, started at any page `1 ≤ page ≤ min k 20` with
budget `20 − page`, where pages below `k` are full (200 records) and page
`k` (when it is reachable under the cap) is short: it requests exactly the
pages `page .. min k 20` in ascending order, performs one token-freshness
check per request, and returns the concatenation of the batches in
retrieval order. -/
theorem fetchLoop_spec (env : FetchEnv) (k : Nat) (bat : Nat → List RawEntry)
    (hresp : ∀ p, 1 ≤ p → p ≤ min k 20 → env.pages p 200 = .ok (bat p))
    (hfull : ∀ p, 1 ≤ p → p < k → p ≤ 20 → (bat p).length = 200)
    (hshort : k ≤ 20 → (bat k).length < 200) :
    ∀ (d page : Nat), min k 20 - page = d → 1 ≤ page → page ≤ min k 20 →
      ∀ (acc : List RawEntry) (st : FetchState),
        (fetchLoop env (20 - page) page acc st).2 =
            .ok (acc ++ joinBats bat page (min k 20)) ∧
        (fetchLoop env (20 - page) page acc st).1.reqs =
            st.reqs ++ (pageRange page (min k 20)).map (fun p => (p, 200)) ∧
        (fetchLoop env (20 - page) page acc st).1.freshChecks =
            st.freshChecks + (min k 20 + 1 - page) := by
  intro d
  induction d with
  | zero =>
    intro page hd h1 hm acc st
    by_cases hk20 : k ≤ 20
    · have hpk : k = page := by omega
      rw [fetchLoop_stop_short env (20 - page) page acc st (bat page)
        (hresp page h1 hm) (Or.inr (hpk ▸ hshort hk20))]
      have hmk : min k 20 = page := by omega
      refine ⟨?_, ?_, ?_⟩
      · rw [hmk, joinBats_single]
      · rw [hmk, pageRange_single]
        simp [stepState_reqs]
      · rw [hmk, stepState_fresh]
        omega
    · have h0 : 20 - page = 0 := by omega
      rw [h0, fetchLoop_full_cap env page acc st (bat page)
        (hresp page h1 hm) (hfull page h1 (by omega) (by omega))]
      have hmk : min k 20 = page := by omega
      refine ⟨?_, ?_, ?_⟩
      · rw [hmk, joinBats_single]
      · rw [hmk, pageRange_single]
        simp [stepState_reqs]
      · rw [hmk, stepState_fresh]
        omega
  | succ d ih =>
    intro page hd h1 hm acc st
    have hlt : page < min k 20 := by omega
    have hfl : (bat page).length = 200 := hfull page h1 (by omega) (by omega)
    have hrem : 20 - page = (20 - (page + 1)) + 1 := by omega
    rw [hrem, fetchLoop_full_next env (20 - (page + 1)) page acc st (bat page)
      (hresp page h1 (by omega)) hfl]
    obtain ⟨ih1, ih2, ih3⟩ := ih (page + 1) (by omega) (by omega) (by omega)
      (acc ++ bat page) ((stravaFetchStep env st page).1)
    refine ⟨?_, ?_, ?_⟩
    · rw [ih1, joinBats_cons bat page (min k 20) (by omega), List.append_assoc]
    · rw [ih2, stepState_reqs, pageRange_cons page (min k 20) (by omega)]
      simp
    · rw [ih3, stepState_fresh]
      omega

/-- C5: `GET /api/activities` requests pages of fixed size 200 in
ascending order starting at page 1, invoking the token-freshness check
exactly once before every page request; with pages below `k` full and page
`k` short it stops at the first short page or at the 20-page cap, issuing
exactly `min k 20` requests (one request when page 1 is short), and the
fetched batches are concatenated in retrieval order with no further
sorting before normalization. -/
theorem C5_pagination (env : FetchEnv) (sess : Option TokenRecord)
    (k : Nat) (bat : Nat → List RawEntry)
    (hk : 1 ≤ k)
    (hresp : ∀ p, 1 ≤ p → p ≤ min k 20 → env.pages p 200 = .ok (bat p))
    (hfull : ∀ p, 1 ≤ p → p < k → p ≤ 20 → (bat p).length = 200)
    (hshort : k ≤ 20 → (bat k).length < 200)
    (hauth : isAuthed sess = true) :
    (fetchLoop env 19 1 [] (initState sess)).2 =
        .ok (joinBats bat 1 (min k 20)) ∧
    (apiActivities env sess).1 = .ok (cleaned (joinBats bat 1 (min k 20))) ∧
    (apiActivities env sess).2.reqs =
        (pageRange 1 (min k 20)).map (fun p => (p, 200)) ∧
    (apiActivities env sess).2.freshChecks = min k 20 := by
  obtain ⟨h1, h2, h3⟩ := fetchLoop_spec env k bat hresp hfull hshort
    (min k 20 - 1) 1 rfl (by omega) (by omega) [] (initState sess)
  simp only [show (20 : Nat) - 1 = 19 from rfl, List.nil_append] at h1 h2 h3
  have hreq0 : (initState sess).reqs = [] := rfl
  have hfc0 : (initState sess).freshChecks = 0 := rfl
  rw [hreq0] at h2
  rw [hfc0] at h3
  have hnot : ¬ (isAuthed sess = false) := by rw [hauth]; simp
  cases hfl : fetchLoop env 19 1 [] (initState sess) with
  | mk st r =>
    rw [hfl] at h1 h2 h3
    simp only at h1 h2 h3
    subst h1
    refine ⟨rfl, ?_, ?_, ?_⟩
    · simp [apiActivities, hnot, hfl]
    · simp [apiActivities, hnot, hfl, h2]
    · simp [apiActivities, hnot, hfl, h3]

/-- The pagination loop, with pages below `k ≤ 20` full and page `k`
failing, aborts with that upstream error from any start page `≤ k`. -/
theorem fetchLoop_error_spec (env : FetchEnv) (k : Nat)
    (bat : Nat → List RawEntry) (status : Nat) (body : String)
    (hresp : ∀ p, 1 ≤ p → p < k → env.pages p 200 = .ok (bat p))
    (hfull : ∀ p, 1 ≤ p → p < k → (bat p).length = 200)
    (herr : env.pages k 200 = .httpError status body)
    (hk20 : k ≤ 20) :
    ∀ (d page : Nat), k - page = d → 1 ≤ page → page ≤ k →
      ∀ (acc : List RawEntry) (st : FetchState),
        (fetchLoop env (20 - page) page acc st).2 = .error ⟨status, body⟩ := by
  intro d
  induction d with
  | zero =>
    intro page hd h1 hpk acc st
    have hpage : k = page := by omega
    rw [fetchLoop_error_step env (20 - page) page acc st status body (hpage ▸ herr)]
  | succ d ih =>
    intro page hd h1 hpk acc st
    have hlt : page < k := by omega
    have hrem : 20 - page = (20 - (page + 1)) + 1 := by omega
    rw [hrem, fetchLoop_full_next env (20 - (page + 1)) page acc st (bat page)
      (hresp page h1 hlt) (hfull page h1 hlt)]
    exact ih (page + 1) (by omega) (by omega) (by omega) _ _

/-- C6: if any page request returns a non-success status (pages below `k`
full, page `k ≤ 20` failing), the whole fetch aborts with the upstream
status and body, `GET /api/activities` answers with the server error
carrying `Strava API error status: body`, and no (partial) activity list
is returned. -/
theorem C6_upstream_error_aborts (env : FetchEnv) (sess : Option TokenRecord)
    (k status : Nat) (body : String) (bat : Nat → List RawEntry)
    (hk : 1 ≤ k) (hk20 : k ≤ 20)
    (hresp : ∀ p, 1 ≤ p → p < k → env.pages p 200 = .ok (bat p))
    (hfull : ∀ p, 1 ≤ p → p < k → (bat p).length = 200)
    (herr : env.pages k 200 = .httpError status body)
    (hauth : isAuthed sess = true) :
    (fetchLoop env 19 1 [] (initState sess)).2 = .error ⟨status, body⟩ ∧
    (apiActivities env sess).1 =
        .serverError ("Strava API error " ++ toString status ++ ": " ++ body) ∧
    (∀ acts, (apiActivities env sess).1 ≠ .ok acts) := by
  have h1 := fetchLoop_error_spec env k bat status body hresp hfull herr hk20
    (k - 1) 1 rfl (by omega) (by omega) [] (initState sess)
  simp only [show (20 : Nat) - 1 = 19 from rfl] at h1
  have hnot : ¬ (isAuthed sess = false) := by rw [hauth]; simp
  cases hfl : fetchLoop env 19 1 [] (initState sess) with
  | mk st r =>
    rw [hfl] at h1
    simp only at h1
    subst h1
    refine ⟨rfl, ?_, ?_⟩ <;>
      simp [apiActivities, hnot, hfl]

/-- Witness for C5: a single short (empty) page 1 yields one `(1, 200)`
request, one freshness check, and the empty normalized list. -/
theorem C5_witness :
    (apiActivities envW (some recAuthW)).1 =
        .ok (cleaned (joinBats batW 1 (min 1 20))) ∧
    (apiActivities envW (some recAuthW)).2.reqs =
        (pageRange 1 (min 1 20)).map (fun p => (p, 200)) ∧
    (apiActivities envW (some recAuthW)).2.freshChecks = min 1 20 := by
  have h := C5_pagination envW (some recAuthW) 1 batW (by omega)
    (fun p h1 h2 => rfl) (fun p h1 h2 _ => by omega) (fun _ => by decide)
    (by decide)
  exact ⟨h.2.1, h.2.2.1, h.2.2.2⟩

/-- Witness for C6: a failing page 1 surfaces as the 500 server error. -/
theorem C6_witness :
    (apiActivities envEW (some recAuthW)).1 =
      .serverError ("Strava API error " ++ toString 503 ++ ": " ++ "boom") :=
  (C6_upstream_error_aborts envEW (some recAuthW) 1 503 "boom" batW
    (by omega) (by omega) (fun p h1 h2 => by omega) (fun p h1 h2 => by omega)
    rfl (by decide)).2.1

end StravaRoutes
